import Mathlib

/-!
Verification development for the smart-contract deployment server
(`src/app/app.py`).  The Python handlers are shallowly embedded as pure
Lean functions: the brownie / filesystem / pathvalidate collaborators are
an explicit `Env` record of oracle functions, the process-wide mutable
state (`ACTIVEACCOUNT`, the brownie network connection, the contracts
folder) is passed and returned explicitly, and every observable
collaborator call is recorded in a trace of `Event`s.  Python exceptions
are modelled with `Except`; an uncaught exception escaping a handler is a
top-level `Except.error`.
-/

/-- Model of Python `str.replace` on an empty pattern: `rep` is inserted
before and after every character (`"ab".replace("", "x") == "xaxbx"`). -/
def replaceEmptyPat (rep : List Char) : List Char → List Char
  | [] => rep
  | c :: rest => rep ++ c :: replaceEmptyPat rep rest

/-- Fuelled worker for Python `str.replace` with a non-empty pattern:
scan left to right, replace each non-overlapping occurrence of `pat` by
`rep`, continue after the replaced occurrence.  The fuel only bounds the
recursion; `replaceAll` supplies enough fuel for the whole input. -/
def replaceFuel (pat rep : List Char) : Nat → List Char → List Char
  | 0, s => s
  | _ + 1, [] => []
  | fuel + 1, c :: rest =>
    if pat.isPrefixOf (c :: rest) then
      rep ++ replaceFuel pat rep fuel (rest.drop (pat.length - 1))
    else
      c :: replaceFuel pat rep fuel rest

/-- Python `str.replace` for a non-empty pattern, on character lists. -/
def replaceAll (pat rep s : List Char) : List Char :=
  replaceFuel pat rep s.length s

/-- Whether `pat` occurs as a contiguous substring of the second list. -/
def occursIn (pat : List Char) : List Char → Bool
  | [] => pat.isEmpty
  | c :: rest => pat.isPrefixOf (c :: rest) || occursIn pat rest

/-- Model of Python `s.replace(pat, rep)` on `String`. -/
def pyReplace (s pat rep : String) : String :=
  match pat.data with
  | [] => (replaceEmptyPat rep.data s.data).asString
  | _ :: _ => (replaceAll pat.data rep.data s.data).asString

/-- The template renderer of `deploy_template_contract` (src/app/app.py
lines 367-368): fold Python `str.replace` of every `<key>` placeholder
over the params, in mapping iteration order. -/
def render (t : String) (ps : List (String × String)) : String :=
  ps.foldl (fun acc kv => pyReplace acc ("<" ++ kv.fst ++ ">") kv.snd) t

/-- Model of Python `s.endswith(suf)`. -/
def strEndsWith (s suf : String) : Bool :=
  suf.data.isSuffixOf s.data

/-- The `.sol` suffix normalisation of src/app/app.py lines 353-354. -/
def solName (s : String) : String :=
  if strEndsWith s ".sol" then s else s ++ ".sol"

/-- A signing identity loaded by the wallet collaborator
(`accounts.load`); the core only reads its address. -/
structure Account where
  address : String
deriving Repr, DecidableEq

/-- The `ActiveAccount` singleton of src/app/app.py lines 37-67: the
process-wide active signing identity, `None` fields initially. -/
structure ActiveAccountState where
  account : Option Account
  account_name : Option String
deriving Repr, DecidableEq

/-- `ActiveAccount.set_account` (src/app/app.py lines 46-55): overwrite
both fields with the freshly loaded identity. -/
def ActiveAccountState.set_account (_s : ActiveAccountState) (a : Account)
    (n : String) : ActiveAccountState :=
  { account := some a, account_name := some n }

/-- What `ContractContainer.deploy` returns on success: the deployed
contract's bytecode and address. -/
structure DeployInfo where
  bytecode : String
  address : String
deriving Repr, DecidableEq

/-- What `func.transact` returns on success: transaction id and status. -/
structure TxInfo where
  txid : String
  txstatus : Nat
deriving Repr, DecidableEq

/-- Python exceptions distinguished by the handlers of src/app/app.py:
`KeyError`, `pathvalidate.ValidationError`, and every other `Exception`.
The payload is the Python `str(exc)` text. -/
inductive Exc where
  | keyErr (msg : String)
  | validationErr (msg : String)
  | otherErr (msg : String)
deriving Repr, DecidableEq

/-- `str(exc)` of a modelled exception. -/
def excMsg : Exc → String
  | Exc.keyErr m => m
  | Exc.validationErr m => m
  | Exc.otherErr m => m

/-- Observable collaborator calls, recorded in order of occurrence. -/
inductive Event where
  | readTemplate (path : String)
  | writeContract (path : String) (content : String)
  | projAcquire
  | projRelease
  | deployTx (cname : String) (sender : Option Account) (publish : Bool)
  | methodTx (cname : String) (method : String) (sender : Option Account)
  | netOff
  | netOn (name : String)
  | acctLoad (name : String)
deriving Repr, DecidableEq

def isAcquireEv : Event → Bool
  | Event.projAcquire => true
  | _ => false

def isReleaseEv : Event → Bool
  | Event.projRelease => true
  | _ => false

def isDeployEv : Event → Bool
  | Event.deployTx _ _ _ => true
  | _ => false

def isMethodEv : Event → Bool
  | Event.methodTx _ _ _ => true
  | _ => false

/-- A chain submission: a deploy transaction or a method transaction. -/
def isChainEv (e : Event) : Bool :=
  isDeployEv e || isMethodEv e

/-- The external collaborators (pathvalidate, filesystem, brownie) as
oracle functions.  `Except.error m` models the collaborator raising an
exception whose `str` is `m`. -/
structure Env where
  validFilename : String → Bool
  validationMsg : String → String
  fileExists : String → Bool
  readFile : String → String
  projectContracts : List String
  abiOf : String → String
  verificationOf : String → String
  deployOutcome : String → Option Account → Bool → Except String DeployInfo
  atOutcome : String → String → Except String Unit
  methodSig : String → String → Option String
  transactOutcome : String → String → List String → Option Account →
    Except String TxInfo
  loadAccount : String → String → Except String Account
  connectOk : String → Bool
  connectErr : String → String

/-- The contracts folder as an association list path ↦ content; a write
overwrites any previous entry for the same path. -/
def writeFS (fs : List (String × String)) (p c : String) :
    List (String × String) :=
  (p, c) :: fs.filter (fun e => ¬ e.fst = p)

def fsLookup (fs : List (String × String)) (p : String) : Option String :=
  (fs.find? (fun e => e.fst = p)).map (fun e => e.snd)

/-- The JSON body returned by `deploy_template_contract` on success
(src/app/app.py lines 377-391). -/
structure DeployData where
  abi : String
  contractText : String
  networkName : Option String
  verification : String
  deployedBytecode : String
  contract_name : String
  contract_params : List (String × String)
  contract_code : String
  contract_address : String
  deployer_address : String
deriving Repr, DecidableEq

inductive DeployResp where
  | success (d : DeployData)
  | error (message : String)
deriving Repr, DecidableEq

inductive InteractResp where
  | success (tx_hash : String) (tx_status : Nat)
  | error (message : String)
deriving Repr, DecidableEq

def InteractResp.isSucc : InteractResp → Bool
  | InteractResp.success _ _ => true
  | _ => false

inductive NetResp where
  | ok (networkName : String)
deriving Repr, DecidableEq

inductive AccountResp where
  | okAccount (account_name : String) (account_address : String)
  | error (message : String)
deriving Repr, DecidableEq

/-- `str(AttributeError)` raised when the success branch dereferences
`ACTIVEACCOUNT.account.address` while the account is `None`. -/
def noneAttr : String :=
  "\x27NoneType\x27 object has no attribute \x27address\x27"

/-- `set_account_active` (src/app/app.py lines 103-126): load the named
account via the wallet collaborator; on success store it in the
`ActiveAccount` singleton, on failure return a status-error body leaving
the singleton untouched. -/
def set_account_active (env : Env) (st : ActiveAccountState)
    (account_name account_pass : String) :
    AccountResp × ActiveAccountState × List Event :=
  match env.loadAccount account_name account_pass with
  | Except.error msg =>
      (AccountResp.error msg, st, [Event.acctLoad account_name])
  | Except.ok acct =>
      (AccountResp.okAccount account_name acct.address,
       st.set_account acct account_name,
       [Event.acctLoad account_name])

/-- `set_network_active` (src/app/app.py lines 198-212): disconnect the
current connection if any, then connect to the requested network.  The
handler has no `try`/`except`: a connect failure escapes as an uncaught
exception (`Except.error`).  Returns (response-or-exception, new network
state, trace). -/
def set_network_active (env : Env) (net : Option String)
    (network_name : String) :
    Except String NetResp × Option String × List Event :=
  let pre :=
    if net.isSome then ([Event.netOff], (none : Option String))
    else ([], net)
  if env.connectOk network_name then
    (Except.ok (NetResp.ok network_name), some network_name,
     pre.1 ++ [Event.netOn network_name])
  else
    (Except.error (env.connectErr network_name), pre.2,
     pre.1 ++ [Event.netOn network_name])

/-- The body of `deploy_template_contract` (src/app/app.py lines
352-396), i.e. everything inside the outer `try`.  Normal `return`s are
`Except.ok`; a raised exception is `Except.error` carrying the `Exc`.
Returns (outcome, trace, contracts folder).  Control flow mirrors the
source: `.sol` normalisation, two `validate_filename` calls, template
existence check, read + render + write, `project.load` (acquire),
container lookup by `contract_name` (raises `KeyError` when the project
declares no such contract), then the inner `try` around `deploy` that
closes the project on both its success and failure paths. -/
def deploy_body (env : Env) (st : ActiveAccountState) (net : Option String)
    (fs : List (String × String)) (template_name : String)
    (template_params : List (String × String)) (contract_name : String)
    (publish_source : Bool) :
    Except Exc DeployResp × List Event × List (String × String) :=
  let tn := solName template_name
  let cfile := contract_name ++ ".sol"
  if env.validFilename tn = true then
    if env.validFilename cfile = true then
      let template_path := "../templates/" ++ tn
      let contract_path := "../contracts/" ++ cfile
      if env.fileExists template_path = true then
        let template_code := render (env.readFile template_path) template_params
        let fs1 := writeFS fs contract_path template_code
        let tr := [Event.readTemplate template_path,
                   Event.writeContract contract_path template_code,
                   Event.projAcquire]
        if env.projectContracts.contains contract_name = true then
          let tr2 := tr ++ [Event.deployTx contract_name st.account publish_source]
          match env.deployOutcome contract_name st.account publish_source with
          | Except.error msg =>
              (Except.ok (DeployResp.error msg), tr2 ++ [Event.projRelease], fs1)
          | Except.ok info =>
              match st.account with
              | none =>
                  (Except.ok (DeployResp.error noneAttr),
                   tr2 ++ [Event.projRelease], fs1)
              | some acct =>
                  (Except.ok (DeployResp.success
                    { abi := env.abiOf contract_name,
                      contractText := template_code,
                      networkName := net,
                      verification := env.verificationOf contract_name,
                      deployedBytecode := info.bytecode,
                      contract_name := contract_name,
                      contract_params := template_params,
                      contract_code := template_code,
                      contract_address := info.address,
                      deployer_address := acct.address }),
                   tr2 ++ [Event.projRelease], fs1)
        else
          (Except.error (Exc.keyErr ("\x27" ++ contract_name ++ "\x27")), tr, fs1)
      else
        (Except.ok (DeployResp.error (tn ++ " template is not available!")), [], fs)
    else
      (Except.error (Exc.validationErr (env.validationMsg cfile)), [], fs)
  else
    (Except.error (Exc.validationErr (env.validationMsg tn)), [], fs)

/-- `deploy_template_contract` (src/app/app.py lines 334-405): the body
wrapped by the outer `except KeyError` / `except ValidationError` /
`except Exception` clauses, each mapping to a status-error JSON body. -/
def deploy_template_contract (env : Env) (st : ActiveAccountState)
    (net : Option String) (fs : List (String × String))
    (template_name : String) (template_params : List (String × String))
    (contract_name : String) (publish_source : Bool) :
    DeployResp × List Event × List (String × String) :=
  match deploy_body env st net fs template_name template_params contract_name
      publish_source with
  | (Except.ok r, tr, fs2) => (r, tr, fs2)
  | (Except.error (Exc.keyErr e), tr, fs2) =>
      (DeployResp.error
        ("Please make sure that the contract name and token name are same! KeyError: "
          ++ e), tr, fs2)
  | (Except.error (Exc.validationErr e), tr, fs2) =>
      (DeployResp.error e, tr, fs2)
  | (Except.error (Exc.otherErr e), tr, fs2) =>
      (DeployResp.error e, tr, fs2)

/-- The body of `interact_contract` (src/app/app.py lines 443-456):
`project.load` (acquire), container lookup (raises `KeyError` for an
unknown contract name), bind to the deployed instance, resolve the
method signature (raises `KeyError` for an unknown method), submit the
method transaction with the active account as sender, and close the
project only after a successful transact. -/
def interact_body (env : Env) (st : ActiveAccountState)
    (contract_name contract_address contract_method : String)
    (method_args : List String) : Except Exc InteractResp × List Event :=
  let tr := [Event.projAcquire]
  if env.projectContracts.contains contract_name = true then
    match env.atOutcome contract_name contract_address with
    | Except.error msg => (Except.error (Exc.otherErr msg), tr)
    | Except.ok _ =>
      match env.methodSig contract_name contract_method with
      | none =>
          (Except.error (Exc.keyErr ("\x27" ++ contract_method ++ "\x27")), tr)
      | some sig =>
        let tr2 := tr ++ [Event.methodTx contract_name contract_method st.account]
        match env.transactOutcome contract_name sig method_args st.account with
        | Except.error msg => (Except.error (Exc.otherErr msg), tr2)
        | Except.ok tx =>
            (Except.ok (InteractResp.success tx.txid tx.txstatus),
             tr2 ++ [Event.projRelease])
  else
    (Except.error (Exc.keyErr ("\x27" ++ contract_name ++ "\x27")), tr)

/-- `interact_contract` (src/app/app.py lines 427-458): the body wrapped
by the single bare `except Exception` clause mapping every exception to
a status-error body. -/
def interact_contract (env : Env) (st : ActiveAccountState)
    (contract_name contract_address contract_method : String)
    (method_args : List String) : InteractResp × List Event :=
  match interact_body env st contract_name contract_address contract_method
      method_args with
  | (Except.ok r, tr) => (r, tr)
  | (Except.error e, tr) => (InteractResp.error (excMsg e), tr)

/-- A fully permissive collaborator environment whose chain submissions
fail with a revert message; used to instantiate the theorems. -/
def envBase : Env :=
  { validFilename := fun _ => true,
    validationMsg := fun n => "invalid filename " ++ n,
    fileExists := fun _ => true,
    readFile := fun _ => "contract <NAME> stub",
    projectContracts := ["Foo"],
    abiOf := fun _ => "abi",
    verificationOf := fun _ => "verification",
    deployOutcome := fun _ _ _ => Except.error "execution reverted",
    atOutcome := fun _ _ => Except.ok (),
    methodSig := fun _ m => some (m ++ "()"),
    transactOutcome := fun _ _ _ _ => Except.error "execution reverted",
    loadAccount := fun _ _ => Except.error "could not decrypt keyfile",
    connectOk := fun _ => false,
    connectErr := fun n => "Unknown network " ++ n }

/-- `envBase` whose loaded project declares no contracts at all. -/
def envMismatch : Env :=
  { envBase with projectContracts := [] }

/-- `envBase` whose chain submissions succeed. -/
def envOk : Env :=
  { envBase with
    deployOutcome := fun _ _ _ =>
      Except.ok { bytecode := "0xbytecode", address := "0xaddress" },
    transactOutcome := fun _ _ _ _ =>
      Except.ok { txid := "0xtxid", txstatus := 1 },
    connectOk := fun _ => true,
    loadAccount := fun n _ => Except.ok { address := "0xaddr-" ++ n } }

/-- `envBase` rejecting every filename. -/
def envInvalid : Env :=
  { envBase with validFilename := fun _ => false }

/-- The `ActiveAccount` singleton in its initial state: no identity. -/
def accNone : ActiveAccountState :=
  { account := none, account_name := none }

/-- An `ActiveAccount` state holding a signing identity. -/
def accAlice : ActiveAccountState :=
  { account := some { address := "0xalice" }, account_name := some "alice" }

theorem data_append (a b : String) : (a ++ b).data = a.data ++ b.data := rfl

theorem asString_data (s : String) : s.data.asString = s := rfl

theorem replaceFuel_of_not_occurs (pat rep : List Char) :
    ∀ (f : Nat) (s : List Char), occursIn pat s = false →
      replaceFuel pat rep f s = s := by
  intro f
  induction f with
  | zero => intro s _; rfl
  | succ n ih =>
    intro s h
    cases s with
    | nil => rfl
    | cons c rest =>
      have h2 : (pat.isPrefixOf (c :: rest) || occursIn pat rest) = false := h
      rcases Bool.or_eq_false_iff.mp h2 with ⟨hp, hr⟩
      simp [replaceFuel, hp, ih rest hr]

theorem replaceAll_of_not_occurs (pat rep s : List Char)
    (h : occursIn pat s = false) : replaceAll pat rep s = s :=
  replaceFuel_of_not_occurs pat rep s.length s h

theorem occursIn_head_not_mem (c₀ : Char) (p : List Char) :
    ∀ s : List Char, ¬ c₀ ∈ s → occursIn (c₀ :: p) s = false := by
  intro s
  induction s with
  | nil => intro _; rfl
  | cons c rest ih =>
    intro h
    have hc : ¬ c₀ = c := by
      intro he; exact h (he ▸ List.mem_cons_self c rest)
    have hr : ¬ c₀ ∈ rest := fun hm => h (List.mem_cons_of_mem c hm)
    have hpre : (c₀ :: p).isPrefixOf (c :: rest) = false := by
      simp [List.isPrefixOf]
      intro he; exact absurd he hc
    simp [occursIn, hpre, ih hr]

theorem pyReplace_of_not_occurs (s k v : String)
    (h : occursIn ("<" ++ k ++ ">").data s.data = false) :
    pyReplace s ("<" ++ k ++ ">") v = s := by
  have hdata : ("<" ++ k ++ ">").data = '<' :: (k.data ++ ['>']) := rfl
  unfold pyReplace
  rw [hdata]
  rw [hdata] at h
  simp [replaceAll_of_not_occurs _ _ _ h, asString_data]

theorem pyReplace_no_lt (s k v : String) (h : ¬ '<' ∈ s.data) :
    pyReplace s ("<" ++ k ++ ">") v = s := by
  apply pyReplace_of_not_occurs
  have hdata : ("<" ++ k ++ ">").data = '<' :: (k.data ++ ['>']) := rfl
  rw [hdata]
  exact occursIn_head_not_mem '<' (k.data ++ ['>']) s.data h

theorem render_no_lt : ∀ (ps : List (String × String)) (s : String),
    ¬ '<' ∈ s.data → render s ps = s := by
  intro ps
  induction ps with
  | nil => intro s _; rfl
  | cons kv rest ih =>
    intro s h
    have hstep : pyReplace s ("<" ++ kv.fst ++ ">") kv.snd = s :=
      pyReplace_no_lt s kv.fst kv.snd h
    have : render s (kv :: rest) =
        render (pyReplace s ("<" ++ kv.fst ++ ">") kv.snd) rest := rfl
    rw [this, hstep, ih s h]

/-- C5: rendering substitutes every key of the params left to right
(each step is Python `str.replace` of the literal `<k>` token), an empty
params mapping leaves the template verbatim, the two documented example
renderings hold, and a key whose `<k>` token does not occur in the
string leaves it unchanged; `render` is a total function, so rendering
never fails. -/
theorem render_replaces_every_token :
    (∀ t : String, render t [] = t) ∧
    render "<A><B>" [("A", "x"), ("B", "y")] = "xy" ∧
    render "<A>" [] = "<A>" ∧
    (∀ (t k v : String) (rest : List (String × String)),
        render t ((k, v) :: rest) =
          render (pyReplace t ("<" ++ k ++ ">") v) rest) ∧
    (∀ (s k v : String), occursIn ("<" ++ k ++ ">").data s.data = false →
        pyReplace s ("<" ++ k ++ ">") v = s) := by
  refine ⟨fun t => rfl, by decide, rfl, fun t k v rest => rfl, ?_⟩
  intro s k v h
  exact pyReplace_of_not_occurs s k v h

/-- Witness for `render_replaces_every_token`: the no-occurrence clause
at a concrete string and key. -/
theorem render_replaces_every_token_witness :
    pyReplace "ab" ("<" ++ "A" ++ ">") "x" = "ab" :=
  render_replaces_every_token.2.2.2.2 "ab" "A" "x" (by decide)

/-- C6 counterexample: rendering is not idempotent for the params
`[("A", "")]` whose sole value is the empty string — a string containing
no `<...>` pattern (it contains no character at all).  On the template
`"<<A>A>"` the first render produces `"<A>"` (the replaced occurrence
glues its neighbours into a fresh token) and the second render consumes
it, so `render (render t p) p ≠ render t p`. -/
theorem render_not_idempotent :
    render "<<A>A>" [("A", "")] = "<A>" ∧
    render (render "<<A>A>" [("A", "")]) [("A", "")] = "" ∧
    ('<' ∈ ("" : String).data) = False ∧
    ¬ render (render "<<A>A>" [("A", "")]) [("A", "")] =
        render "<<A>A>" [("A", "")] := by
  refine ⟨by decide, by decide, by simp, by decide⟩

/-- C6 amended: rendering is idempotent whenever the rendered output
contains no `<` character — i.e. when every placeholder was consumed and
the substituted values reintroduced no token material.  (The original
side condition, that the params values contain no `<...>` pattern, is
not sufficient: see the counterexample.) -/
theorem render_idempotent_when_consumed (t : String)
    (ps : List (String × String)) (h : ¬ '<' ∈ (render t ps).data) :
    render (render t ps) ps = render t ps :=
  render_no_lt ps (render t ps) h

/-- Witness for `render_idempotent_when_consumed` at a concrete template
and params mapping. -/
theorem render_idempotent_when_consumed_witness :
    (¬ '<' ∈ (render "a<A>b" [("A", "x")]).data) ∧
    render (render "a<A>b" [("A", "x")]) [("A", "x")] =
      render "a<A>b" [("A", "x")] :=
  ⟨by decide, render_idempotent_when_consumed "a<A>b" [("A", "x")] (by decide)⟩

/-- C10: when loading the named account fails, `set_account_active`
returns the wallet collaborator's error as a status-error body and the
`ActiveAccount` singleton is returned exactly as it was — the previously
active identity (or the absence of one) is retained. -/
theorem set_account_active_error_keeps_state (env : Env)
    (st : ActiveAccountState) (n p m : String)
    (h : env.loadAccount n p = Except.error m) :
    set_account_active env st n p =
      (AccountResp.error m, st, [Event.acctLoad n]) := by
  simp [set_account_active, h]

/-- Witness for `set_account_active_error_keeps_state`: a failed load in
`envBase` leaves a populated active account untouched. -/
theorem set_account_active_error_keeps_state_witness :
    set_account_active envBase accAlice "bob" "pw" =
      (AccountResp.error "could not decrypt keyfile", accAlice,
       [Event.acctLoad "bob"]) :=
  set_account_active_error_keeps_state envBase accAlice "bob" "pw"
    "could not decrypt keyfile" rfl

/-- C7: assuming the first `set_network_active` call connected
successfully, the session then holds exactly that one connection
(`some n1`), and the second call's collaborator trace is exactly one
disconnect followed by one connect — teardown before setup, never two
simultaneously active connections. -/
theorem set_network_second_call_teardown_then_setup (env : Env)
    (net : Option String) (n1 n2 : String) (h : env.connectOk n1 = true) :
    (set_network_active env net n1).2.1 = some n1 ∧
    (set_network_active env (some n1) n2).2.2 =
      [Event.netOff, Event.netOn n2] := by
  constructor
  · cases net <;> simp [set_network_active, h]
  · by_cases h2 : env.connectOk n2 = true <;>
      simp [set_network_active, h2]

/-- Witness for `set_network_second_call_teardown_then_setup` with the
always-connectable environment `envOk`. -/
theorem set_network_second_call_teardown_then_setup_witness :
    (set_network_active envOk none "development").2.1 = some "development" ∧
    (set_network_active envOk (some "development") "mainnet").2.2 =
      [Event.netOff, Event.netOn "mainnet"] :=
  set_network_second_call_teardown_then_setup envOk none "development"
    "mainnet" rfl

/-- C9: if either normalised name fails the filename validator, the
deploy handler performs no collaborator call at all — the trace is
empty, so there is no file read, no file write and no chain submission —
the contracts folder is unchanged, and the response is the status-error
body carrying the validator's message for one of the two names. -/
theorem deploy_invalid_name_no_io (env : Env) (st : ActiveAccountState)
    (net : Option String) (fs : List (String × String))
    (tn : String) (ps : List (String × String)) (cn : String) (pub : Bool)
    (h : env.validFilename (solName tn) = false ∨
         env.validFilename (cn ++ ".sol") = false) :
    (deploy_template_contract env st net fs tn ps cn pub).2.1 = [] ∧
    (deploy_template_contract env st net fs tn ps cn pub).2.2 = fs ∧
    ((deploy_template_contract env st net fs tn ps cn pub).1 =
        DeployResp.error (env.validationMsg (solName tn)) ∨
     (deploy_template_contract env st net fs tn ps cn pub).1 =
        DeployResp.error (env.validationMsg (cn ++ ".sol"))) := by
  rcases h with h | h
  · simp [deploy_template_contract, deploy_body, h]
  · by_cases h1 : env.validFilename (solName tn) = true
    · simp [deploy_template_contract, deploy_body, h1, h]
    · simp [deploy_template_contract, deploy_body, h1]

/-- Witness for `deploy_invalid_name_no_io` in the all-rejecting
environment `envInvalid`. -/
theorem deploy_invalid_name_no_io_witness :
    (deploy_template_contract envInvalid accAlice none [] "Token" [] "Foo"
        true).2.1 = [] ∧
    (deploy_template_contract envInvalid accAlice none [] "Token" [] "Foo"
        true).2.2 = [] ∧
    ((deploy_template_contract envInvalid accAlice none [] "Token" [] "Foo"
        true).1 = DeployResp.error "invalid filename Token.sol" ∨
     (deploy_template_contract envInvalid accAlice none [] "Token" [] "Foo"
        true).1 = DeployResp.error "invalid filename Foo.sol") :=
  deploy_invalid_name_no_io envInvalid accAlice none [] "Token" [] "Foo"
    true (Or.inl rfl)

theorem fsLookup_writeFS (fs : List (String × String)) (p c : String) :
    fsLookup (writeFS fs p c) p = some c := by
  simp [fsLookup, writeFS, List.find?]

/-- C4: when the loaded project declares no contract named
`contract_name` (the name does not match the identifier declared inside
the rendered source), the container lookup raises `KeyError`, the outer
handler maps it to a status-error body whose message explicitly states
that the contract name and the token name must be the same, and no
chain submission of any kind appears in the trace. -/
theorem deploy_name_mismatch_error (env : Env) (st : ActiveAccountState)
    (net : Option String) (fs : List (String × String))
    (tn : String) (ps : List (String × String)) (cn : String) (pub : Bool)
    (hv1 : env.validFilename (solName tn) = true)
    (hv2 : env.validFilename (cn ++ ".sol") = true)
    (hex : env.fileExists ("../templates/" ++ solName tn) = true)
    (hmem : env.projectContracts.contains cn = false) :
    (deploy_template_contract env st net fs tn ps cn pub).1 =
      DeployResp.error
        ("Please make sure that the contract name and token name are same! KeyError: "
          ++ ("\x27" ++ cn ++ "\x27")) ∧
    (deploy_template_contract env st net fs tn ps cn pub).2.1.countP
      isChainEv = 0 := by
  have hm : ¬ cn ∈ env.projectContracts := by simpa using hmem
  simp [deploy_template_contract, deploy_body, hv1, hv2, hex, hm,
    List.countP_cons, isChainEv, isDeployEv, isMethodEv]

/-- Witness for `deploy_name_mismatch_error`: requesting `"Bar"` against
a project declaring only `"Foo"`. -/
theorem deploy_name_mismatch_error_witness :
    (deploy_template_contract envBase accAlice none [] "Token" [] "Bar"
        true).1 =
      DeployResp.error
        ("Please make sure that the contract name and token name are same! KeyError: "
          ++ ("\x27" ++ "Bar" ++ "\x27")) ∧
    (deploy_template_contract envBase accAlice none [] "Token" [] "Bar"
        true).2.1.countP isChainEv = 0 :=
  deploy_name_mismatch_error envBase accAlice none [] "Token" [] "Bar" true
    rfl rfl rfl rfl

/-- C8: once the rendering step is reached (names valid, template
present), the trace begins with the template read followed immediately
by the write of the rendered source under `contract_name` — so the
write precedes any deploy submission — and the contracts folder
returned by the handler still maps that path to the rendered source on
every outcome, including a failed deployment: the write is never rolled
back. -/
theorem deploy_write_before_submit_persists (env : Env)
    (st : ActiveAccountState) (net : Option String)
    (fs : List (String × String)) (tn : String)
    (ps : List (String × String)) (cn : String) (pub : Bool)
    (hv1 : env.validFilename (solName tn) = true)
    (hv2 : env.validFilename (cn ++ ".sol") = true)
    (hex : env.fileExists ("../templates/" ++ solName tn) = true) :
    (∃ rest, (deploy_template_contract env st net fs tn ps cn pub).2.1 =
      Event.readTemplate ("../templates/" ++ solName tn) ::
      Event.writeContract ("../contracts/" ++ (cn ++ ".sol"))
        (render (env.readFile ("../templates/" ++ solName tn)) ps) :: rest) ∧
    fsLookup (deploy_template_contract env st net fs tn ps cn pub).2.2
        ("../contracts/" ++ (cn ++ ".sol")) =
      some (render (env.readFile ("../templates/" ++ solName tn)) ps) := by
  by_cases hc : cn ∈ env.projectContracts
  · cases hd : env.deployOutcome cn st.account pub with
    | error m =>
        simp [deploy_template_contract, deploy_body, hv1, hv2, hex, hc, hd,
          fsLookup_writeFS]
    | ok info =>
        cases ha : st.account with
        | none =>
            rw [ha] at hd
            simp [deploy_template_contract, deploy_body, hv1, hv2, hex, hc,
              hd, ha, fsLookup_writeFS]
        | some acct =>
            rw [ha] at hd
            simp [deploy_template_contract, deploy_body, hv1, hv2, hex, hc,
              hd, ha, fsLookup_writeFS]
  · simp [deploy_template_contract, deploy_body, hv1, hv2, hex, hc,
      fsLookup_writeFS]

/-- Witness for `deploy_write_before_submit_persists`: in `envBase` the
deployment fails with a revert, yet the rendered source stays in the
contracts folder and the write precedes the submission in the trace. -/
theorem deploy_write_before_submit_persists_witness :
    (∃ rest,
      (deploy_template_contract envBase accAlice none [] "Token"
          [("NAME", "Foo")] "Foo" true).2.1 =
        Event.readTemplate "../templates/Token.sol" ::
        Event.writeContract "../contracts/Foo.sol" "contract Foo stub" ::
          rest) ∧
    fsLookup (deploy_template_contract envBase accAlice none [] "Token"
        [("NAME", "Foo")] "Foo" true).2.2 "../contracts/Foo.sol" =
      some "contract Foo stub" :=
  deploy_write_before_submit_persists envBase accAlice none [] "Token"
    [("NAME", "Foo")] "Foo" true rfl rfl rfl

/-- C1 counterexample: with no active identity set, the deploy handler
does not fail with any account-precondition error and does perform a
chain submission — the deploy collaborator is called once (with sender
`None`), and the response carries the collaborator's own revert
message, not a `NoActiveAccountError`. -/
theorem deploy_no_account_still_calls_chain :
    (deploy_template_contract envBase accNone none [] "Token" [] "Foo"
        true).2.1.countP isChainEv = 1 ∧
    (deploy_template_contract envBase accNone none [] "Token" [] "Foo"
        true).2.1.count (Event.deployTx "Foo" none true) = 1 ∧
    (deploy_template_contract envBase accNone none [] "Token" [] "Foo"
        true).1 = DeployResp.error "execution reverted" := by
  refine ⟨?_, ?_, ?_⟩ <;> decide

/-- C1 amended: with no active identity, deploy and interact do not
short-circuit: each invokes the chain collaborator exactly once with
sender `None` (once the earlier steps succeed), and the collaborator's
failure is returned as a status-error body with the raised message — no
dedicated `NoActiveAccountError` exists. -/
theorem no_account_submission_behaviour :
    (∀ (env : Env) (st : ActiveAccountState) (net : Option String)
        (fs : List (String × String)) (tn : String)
        (ps : List (String × String)) (cn : String) (pub : Bool)
        (m : String),
      st.account = none →
      env.validFilename (solName tn) = true →
      env.validFilename (cn ++ ".sol") = true →
      env.fileExists ("../templates/" ++ solName tn) = true →
      env.projectContracts.contains cn = true →
      env.deployOutcome cn none pub = Except.error m →
      (deploy_template_contract env st net fs tn ps cn pub).1 =
        DeployResp.error m ∧
      (deploy_template_contract env st net fs tn ps cn pub).2.1.count
        (Event.deployTx cn none pub) = 1 ∧
      (deploy_template_contract env st net fs tn ps cn pub).2.1.countP
        isChainEv = 1) ∧
    (∀ (env : Env) (st : ActiveAccountState) (cn ca cm : String)
        (args : List String) (sig m : String),
      st.account = none →
      env.projectContracts.contains cn = true →
      env.atOutcome cn ca = Except.ok () →
      env.methodSig cn cm = some sig →
      env.transactOutcome cn sig args none = Except.error m →
      (interact_contract env st cn ca cm args).1 = InteractResp.error m ∧
      (interact_contract env st cn ca cm args).2.count
        (Event.methodTx cn cm none) = 1 ∧
      (interact_contract env st cn ca cm args).2.countP isChainEv = 1) := by
  constructor
  · intro env st net fs tn ps cn pub m ha hv1 hv2 hex hmem hdep
    have hm : cn ∈ env.projectContracts := by simpa using hmem
    simp [deploy_template_contract, deploy_body, ha, hv1, hv2, hex, hm,
      hdep, List.count_cons, List.countP_cons, isChainEv, isDeployEv,
      isMethodEv]
  · intro env st cn ca cm args sig m ha hmem hat hsig htx
    have hm : cn ∈ env.projectContracts := by simpa using hmem
    simp [interact_contract, interact_body, excMsg, ha, hm, hat, hsig,
      htx, List.count_cons, List.countP_cons, isChainEv, isDeployEv,
      isMethodEv]

/-- Witness for `no_account_submission_behaviour`: the interact clause
at a concrete environment with no active identity. -/
theorem no_account_submission_behaviour_witness :
    (interact_contract envBase accNone "Foo" "0xaddress" "transfer"
        ["1"]).1 = InteractResp.error "execution reverted" ∧
    (interact_contract envBase accNone "Foo" "0xaddress" "transfer"
        ["1"]).2.count (Event.methodTx "Foo" "transfer" none) = 1 ∧
    (interact_contract envBase accNone "Foo" "0xaddress" "transfer"
        ["1"]).2.countP isChainEv = 1 :=
  no_account_submission_behaviour.2 envBase accNone "Foo" "0xaddress"
    "transfer" ["1"] ("transfer" ++ "()") "execution reverted" rfl rfl rfl
    rfl rfl

/-- C2 counterexample: two leaking exit paths.  In deploy, a contract
name mismatch raises `KeyError` after `project.load`; the outer handler
returns the error but the acquired project handle is never closed.  In
interact, a failing method transaction raises after `project.load` and
the bare handler likewise never closes it: one acquire, zero releases. -/
theorem project_handle_leak :
    (deploy_template_contract envMismatch accAlice none [] "Token" [] "Foo"
        true).2.1.countP isAcquireEv = 1 ∧
    (deploy_template_contract envMismatch accAlice none [] "Token" [] "Foo"
        true).2.1.countP isReleaseEv = 0 ∧
    (interact_contract envBase accAlice "Foo" "0xaddress" "transfer"
        []).2.countP isAcquireEv = 1 ∧
    (interact_contract envBase accAlice "Foo" "0xaddress" "transfer"
        []).2.countP isReleaseEv = 0 := by
  refine ⟨?_, ?_, ?_, ?_⟩ <;> decide

/-- C2 amended: once acquired, the project handle is released only on
some exit paths.  In deploy it is released exactly when the contract
container lookup succeeds (both on deploy success and on deploy
failure, via the inner handler) and leaked when the lookup raises
`KeyError`; in interact it is released exactly on the success path and
leaked on every failure path. -/
theorem project_handle_release_paths :
    (∀ (env : Env) (st : ActiveAccountState) (net : Option String)
        (fs : List (String × String)) (tn : String)
        (ps : List (String × String)) (cn : String) (pub : Bool),
      env.validFilename (solName tn) = true →
      env.validFilename (cn ++ ".sol") = true →
      env.fileExists ("../templates/" ++ solName tn) = true →
      (deploy_template_contract env st net fs tn ps cn pub).2.1.countP
        isAcquireEv = 1 ∧
      (deploy_template_contract env st net fs tn ps cn pub).2.1.countP
        isReleaseEv =
        (if env.projectContracts.contains cn = true then 1 else 0)) ∧
    (∀ (env : Env) (st : ActiveAccountState) (cn ca cm : String)
        (args : List String),
      (interact_contract env st cn ca cm args).2.countP isAcquireEv = 1 ∧
      (interact_contract env st cn ca cm args).2.countP isReleaseEv =
        (if (interact_contract env st cn ca cm args).1.isSucc = true
         then 1 else 0)) := by
  constructor
  · intro env st net fs tn ps cn pub hv1 hv2 hex
    by_cases hc : cn ∈ env.projectContracts
    · cases hd : env.deployOutcome cn st.account pub with
      | error m =>
          simp [deploy_template_contract, deploy_body, hv1, hv2, hex, hc,
            hd, List.countP_cons, isAcquireEv, isReleaseEv]
      | ok info =>
          cases ha : st.account with
          | none =>
              rw [ha] at hd
              simp [deploy_template_contract, deploy_body, hv1, hv2, hex,
                hc, hd, ha, List.countP_cons, isAcquireEv, isReleaseEv]
          | some acct =>
              rw [ha] at hd
              simp [deploy_template_contract, deploy_body, hv1, hv2, hex,
                hc, hd, ha, List.countP_cons, isAcquireEv, isReleaseEv]
    · simp [deploy_template_contract, deploy_body, hv1, hv2, hex, hc,
        List.countP_cons, isAcquireEv, isReleaseEv]
  · intro env st cn ca cm args
    by_cases hc : cn ∈ env.projectContracts
    · cases hat : env.atOutcome cn ca with
      | error m =>
          simp [interact_contract, interact_body, hc, hat,
            List.countP_cons, isAcquireEv, isReleaseEv, InteractResp.isSucc]
      | ok u =>
          cases hsig : env.methodSig cn cm with
          | none =>
              simp [interact_contract, interact_body, hc, hat, hsig,
                List.countP_cons, isAcquireEv, isReleaseEv,
                InteractResp.isSucc]
          | some sig =>
              cases htx : env.transactOutcome cn sig args st.account with
              | error m =>
                  simp [interact_contract, interact_body, hc, hat, hsig,
                    htx, List.countP_cons, isAcquireEv, isReleaseEv,
                    InteractResp.isSucc]
              | ok tx =>
                  simp [interact_contract, interact_body, hc, hat, hsig,
                    htx, List.countP_cons, isAcquireEv, isReleaseEv,
                    InteractResp.isSucc]
    · simp [interact_contract, interact_body, hc, List.countP_cons,
        isAcquireEv, isReleaseEv, InteractResp.isSucc]

/-- Witness for `project_handle_release_paths`: the deploy clause in the
environment whose chain submission succeeds — one acquire and one
release. -/
theorem project_handle_release_paths_witness :
    (deploy_template_contract envOk accAlice none [] "Token" [] "Foo"
        true).2.1.countP isAcquireEv = 1 ∧
    (deploy_template_contract envOk accAlice none [] "Token" [] "Foo"
        true).2.1.countP isReleaseEv = 1 :=
  project_handle_release_paths.1 envOk accAlice none [] "Token" [] "Foo"
    true rfl rfl rfl

/-- C3 counterexample: `set_network_active` has no exception handler;
when the network collaborator cannot connect, the failure escapes the
handler as an uncaught exception instead of a `status: error` body. -/
theorem set_network_failure_uncaught :
    (set_network_active envBase none "rinkeby").1 =
      Except.error "Unknown network rinkeby" := rfl

/-- C3 amended: deploy and interact map every raised exception to a
uniform status-error body (deploy via its `KeyError` /
`ValidationError` / `Exception` clauses, interact via its bare
`Exception` clause), but `set_network_active` has no handler: a connect
failure propagates out of the handler uncaught. -/
theorem uniform_error_mapping :
    (∀ (env : Env) (st : ActiveAccountState) (net : Option String)
        (fs : List (String × String)) (tn : String)
        (ps : List (String × String)) (cn : String) (pub : Bool) (e : Exc),
      (deploy_body env st net fs tn ps cn pub).1 = Except.error e →
      ∃ m, (deploy_template_contract env st net fs tn ps cn pub).1 =
        DeployResp.error m) ∧
    (∀ (env : Env) (st : ActiveAccountState) (cn ca cm : String)
        (args : List String) (e : Exc),
      (interact_body env st cn ca cm args).1 = Except.error e →
      (interact_contract env st cn ca cm args).1 =
        InteractResp.error (excMsg e)) ∧
    (∀ (env : Env) (net : Option String) (name : String),
      env.connectOk name = false →
      (set_network_active env net name).1 =
        Except.error (env.connectErr name)) := by
  refine ⟨?_, ?_, ?_⟩
  · intro env st net fs tn ps cn pub e h
    rcases hb : deploy_body env st net fs tn ps cn pub with ⟨r, tr, fs2⟩
    rw [hb] at h
    have hr : r = Except.error e := h
    subst hr
    unfold deploy_template_contract
    rw [hb]
    cases e <;> exact ⟨_, rfl⟩
  · intro env st cn ca cm args e h
    rcases hb : interact_body env st cn ca cm args with ⟨r, tr⟩
    rw [hb] at h
    have hr : r = Except.error e := h
    subst hr
    unfold interact_contract
    rw [hb]
  · intro env net name h
    cases net <;> simp [set_network_active, h]

/-- Witness for `uniform_error_mapping`: the deploy clause applied to a
raised `ValidationError` in the all-rejecting environment. -/
theorem uniform_error_mapping_witness :
    ∃ m, (deploy_template_contract envInvalid accAlice none [] "Token" []
        "Foo" true).1 = DeployResp.error m :=
  uniform_error_mapping.1 envInvalid accAlice none [] "Token" [] "Foo" true
    (Exc.validationErr "invalid filename Token.sol") rfl

